import Mathlib

/-!
Shallow embedding of the claims-dashboard core: the validation module
(ClaimUtils.validateClaim, FormUtils.validateField), the remote access
gateway's response-error interceptor, the claims store reducer
(appReducer and calculateStats from AppContext.js), and the batch
orchestrator (apiService.processPendingClaims, apiService.submitBatchClaims,
and the useClaims hook's submitBatchClaims).

Conventions of the embedding:
- JavaScript field values that may be absent are `Option JVal` (absent =
  `none`, i.e. `undefined`); `JVal` covers the value shapes the validated
  fields actually take (null, boolean, string).
- Network calls are modelled by explicit oracles passed as parameters
  (`net : Nat → Except String String` for indexed submissions,
  `oracle : Option String → Except String String` for status updates);
  the JS `Date` parser is modelled by an oracle `dateOk : String → Bool`.
- `new Date().toISOString()` timestamps are passed in as explicit `now`
  arguments.
- Rationals stand in for JS numbers (all arithmetic here is exact:
  counts, percentages, `Math.round(x*100)/100`).
-/

/-- Model of a JavaScript field value as stored in a claim record:
null, a boolean, or a string. -/
inductive JVal where
  | jnull : JVal
  | jbool : Bool → JVal
  | jstr : String → JVal
deriving DecidableEq, Repr

/-- JavaScript truthiness of a possibly-absent field value:
`undefined`, `null`, `false` and the empty string are falsy. -/
def truthy : Option JVal → Bool
  | none => false
  | some JVal.jnull => false
  | some (JVal.jbool b) => b
  | some (JVal.jstr s) => s != ""

/-- JavaScript string coercion of a value (as applied by `regex.test`
and `new Date`). -/
def jsToStr : JVal → String
  | JVal.jnull => "null"
  | JVal.jbool b => if b then "true" else "false"
  | JVal.jstr s => s

/-- String coercion of a possibly-absent value. -/
def jsToStrOpt : Option JVal → String
  | none => "undefined"
  | some v => jsToStr v

/-- The whitespace characters stripped by the JavaScript
`String.prototype.trim` (the common ones; exotic Unicode spaces are
not used by this repository). -/
def isJsWhitespace (c : Char) : Bool :=
  c = ' ' || c = '\t' || c = '\n' || c = '\r'

/-- Char-level model of the JavaScript `trim()`: drop whitespace from
both ends. -/
def jsTrim (s : String) : String :=
  String.mk (((s.data.dropWhile isJsWhitespace).reverse.dropWhile isJsWhitespace).reverse)

/-- Source condition of the required-field check in
`ClaimUtils.validateClaim`:
`!claimData[field] || (typeof claimData[field] === 'string' && claimData[field].trim() === '')`. -/
def isMissingOrBlank (v : Option JVal) : Bool :=
  !(truthy v) || (match v with
    | some (JVal.jstr s) => jsTrim s == ""
    | _ => false)

/-- Hex digit of the UUID regex character class `[0-9a-f]` under the
case-insensitive flag. -/
def isHexDigit (c : Char) : Bool :=
  ('0' ≤ c && c ≤ '9') || ('a' ≤ c && c ≤ 'f') || ('A' ≤ c && c ≤ 'F')

/-- Version digit class `[1-5]` of the UUID regex. -/
def isVersionDigit (c : Char) : Bool :=
  '1' ≤ c && c ≤ '5'

/-- Variant class `[89ab]` of the UUID regex, case-insensitive. -/
def isVariantChar (c : Char) : Bool :=
  c = '8' || c = '9' || c = 'a' || c = 'b' || c = 'A' || c = 'B'

/-- Which character is allowed at position `i` of a 36-character UUID
string, following
`/^[0-9a-f]{8}-[0-9a-f]{4}-[1-5][0-9a-f]{3}-[89ab][0-9a-f]{3}-[0-9a-f]{12}$/i`. -/
def uuidCharOk (i : Nat) (c : Char) : Bool :=
  if i = 8 || i = 13 || i = 18 || i = 23 then c = '-'
  else if i = 14 then isVersionDigit c
  else if i = 19 then isVariantChar c
  else isHexDigit c

/-- The anchored, case-insensitive UUID regex test used by
`ClaimUtils.validateClaim` and the form field configurations. -/
def uuidRegexTest (s : String) : Bool :=
  s.data.length = 36 && s.data.enum.all (fun p => uuidCharOk p.1 p.2)

/-- A claim record as passed to the validators and to
`apiService.submitClaim`; every field may be absent. The fields
`reason_code` and `reason_description` are never validated and are
omitted. -/
structure ClaimData where
  provider_id : Option JVal := none
  risk_id : Option JVal := none
  patient_id : Option JVal := none
  policy_id : Option JVal := none
  summary : Option JVal := none
  status : Option JVal := none
  submission_date : Option JVal := none
  ex_gratia_flag : Option JVal := none
  appeal_case_flag : Option JVal := none
deriving DecidableEq, Repr

/-- Dynamic field access `claimData[field]` for the field names the
validators iterate over. -/
def getClaimField (c : ClaimData) : String → Option JVal
  | "provider_id" => c.provider_id
  | "risk_id" => c.risk_id
  | "patient_id" => c.patient_id
  | "policy_id" => c.policy_id
  | "summary" => c.summary
  | "status" => c.status
  | "submission_date" => c.submission_date
  | "ex_gratia_flag" => c.ex_gratia_flag
  | "appeal_case_flag" => c.appeal_case_flag
  | _ => none

/-- The `requiredFields` array of `ClaimUtils.validateClaim` and
`apiService.submitClaim`. -/
def requiredFields : List String :=
  ["provider_id", "risk_id", "patient_id", "policy_id", "summary"]

/-- The `validStatuses` array of `ClaimUtils.validateClaim`. -/
def validStatuses : List String :=
  ["Submitted", "Pending", "Approved", "Denied", "Under Review"]

/-- One step of the required-field `forEach`: pushes
`"<field> is required"` when the value is falsy or a blank string. -/
def reqFieldError (name : String) (v : Option JVal) : List String :=
  if isMissingOrBlank v then [name ++ " is required"] else []

/-- One step of the UUID-field `forEach`: only runs the regex when the
value is truthy (`if (claimData[field] && !uuidRegex.test(...))`). -/
def uuidFieldError (name : String) (v : Option JVal) : List String :=
  if truthy v && !(uuidRegexTest (jsToStrOpt v)) then
    [name ++ " must be a valid UUID"]
  else []

/-- `validStatuses.includes(claimData.status)`: only a string equal to
one of the allowed statuses is included. -/
def statusIncluded : Option JVal → Bool
  | some (JVal.jstr s) => validStatuses.contains s
  | _ => false

/-- The status check of `ClaimUtils.validateClaim`. -/
def statusError (v : Option JVal) : List String :=
  if truthy v && !(statusIncluded v) then
    ["status must be one of: " ++ String.intercalate ", " validStatuses]
  else []

/-- `typeof claimData[field] === 'boolean'`. -/
def isBoolVal : Option JVal → Bool
  | some (JVal.jbool _) => true
  | _ => false

/-- One step of the boolean-field `forEach`:
`claimData[field] !== undefined && typeof claimData[field] !== 'boolean'`. -/
def boolFieldError (name : String) (v : Option JVal) : List String :=
  if v.isSome && !(isBoolVal v) then [name ++ " must be a boolean value"] else []

/-- The date check of `ClaimUtils.validateClaim`; the host engine's
`new Date(...)` parse is the oracle `dateOk`. -/
def dateFieldError (dateOk : String → Bool) (v : Option JVal) : List String :=
  if truthy v && !(dateOk (jsToStrOpt v)) then
    ["submission_date must be a valid ISO date string"]
  else []

/-- The `{isValid, errors}` report returned by `ClaimUtils.validateClaim`. -/
structure ValidationResult where
  isValid : Bool
  errors : List String
deriving DecidableEq, Repr

/-- `ClaimUtils.validateClaim`: required checks over the five required
fields, then UUID checks over the four identifier fields, then the
status, boolean and date checks, all accumulating into one errors
array in source order; `isValid` is `errors.length === 0`. -/
def validateClaim (dateOk : String → Bool) (c : ClaimData) : ValidationResult :=
  let errors :=
    reqFieldError "provider_id" c.provider_id ++
    reqFieldError "risk_id" c.risk_id ++
    reqFieldError "patient_id" c.patient_id ++
    reqFieldError "policy_id" c.policy_id ++
    reqFieldError "summary" c.summary ++
    uuidFieldError "provider_id" c.provider_id ++
    uuidFieldError "risk_id" c.risk_id ++
    uuidFieldError "patient_id" c.patient_id ++
    uuidFieldError "policy_id" c.policy_id ++
    statusError c.status ++
    boolFieldError "ex_gratia_flag" c.ex_gratia_flag ++
    boolFieldError "appeal_case_flag" c.appeal_case_flag ++
    dateFieldError dateOk c.submission_date
  { isValid := errors.isEmpty, errors := errors }

/-- A field configuration entry of `CLAIM_FORM_FIELDS` as consumed by
`FormUtils.validateField` (its `validation` sub-object flattened);
`pattern` is the optional regex test. -/
structure FieldConfig where
  label : String
  required : Bool
  pattern : Option (String → Bool)
  patternMessage : Option String
  minLength : Option Nat
  maxLength : Option Nat

/-- The emptiness test of `FormUtils.validateField`:
`!value || (typeof value === 'string' && value.trim() === '')`,
for string-valued form fields. -/
def jsEmptyFieldValue : Option String → Bool
  | none => true
  | some s => s == "" || jsTrim s == ""

/-- `FormUtils.validateField` restricted to string-valued fields: the
required check returns early, an empty optional value skips the rest,
then pattern, `minLength` and `maxLength` checks accumulate. -/
def validateField (config : FieldConfig) (value : Option String) : List String :=
  if config.required && jsEmptyFieldValue value then
    [config.label ++ " is required"]
  else if jsEmptyFieldValue value then
    []
  else
    let s := value.getD ""
    (match config.pattern with
     | some p =>
         if !(p s) then [config.patternMessage.getD (config.label ++ " format is invalid")]
         else []
     | none => []) ++
    (match config.minLength with
     | some m =>
         if s.length < m then
           [config.label ++ " must be at least " ++ toString m ++ " characters"]
         else []
     | none => []) ++
    (match config.maxLength with
     | some m =>
         if s.length > m then
           [config.label ++ " must not exceed " ++ toString m ++ " characters"]
         else []
     | none => [])

/-- The `summary` entry of `CLAIM_FORM_FIELDS`: required, no pattern,
`minLength` 10, `maxLength` 1000. -/
def summaryFieldConfig : FieldConfig :=
  { label := "Claim Summary", required := true, pattern := none,
    patternMessage := none, minLength := some 10, maxLength := some 1000 }

/-- A claim as held by the claims store; `appReducer` builds one from a
processing result merged with the claim id and a `processedAt`
timestamp. Only the fields the store logic reads are kept. -/
structure StoredClaim where
  id : Option String := none
  status : Option String := none
  decision : Option String := none
  processedAt : Option String := none
deriving DecidableEq, Repr

/-- The part of a processing result that `ADD_CLAIM` spreads into the
new stored claim and that `calculateStats` reads. -/
structure ClaimResult where
  status : Option String := none
  decision : Option String := none
deriving DecidableEq, Repr

/-- The store's `stats` object. -/
structure Stats where
  totalClaims : Nat
  approvedCount : Nat
  deniedCount : Nat
  pendingCount : Nat
  approvalRate : ℚ
  avgProcessingTime : ℚ
deriving DecidableEq, Repr

/-- One element of the batch results list built by
`apiService.processPendingClaims` (the key is `claim_id` in the
source; failures carry `error`, successes carry `result`). -/
structure BatchItem where
  claim_id : Option String
  success : Bool
  result : Option String
  error : Option String
  originalStatus : Option String
deriving DecidableEq, Repr

/-- The store's `batchProcessing` slice. -/
structure BatchProcessingState where
  inProgress : Bool
  progress : ℚ
  results : List BatchItem
  errors : List String
deriving DecidableEq, Repr

/-- The reducer state of `AppContext.js` (the `settings` slice is not
modelled: no claim under verification reads it). -/
structure AppState where
  loading : Bool
  error : Option String
  claims : List StoredClaim
  currentClaim : Option StoredClaim
  recentClaims : List StoredClaim
  stats : Stats
  batchProcessing : BatchProcessingState
deriving DecidableEq, Repr

/-- The `initialState` object of `AppContext.js`. -/
def initialAppState : AppState :=
  { loading := false, error := none, claims := [], currentClaim := none,
    recentClaims := [],
    stats := { totalClaims := 0, approvedCount := 0, deniedCount := 0,
               pendingCount := 0, approvalRate := 0, avgProcessingTime := 0 },
    batchProcessing := { inProgress := false, progress := 0, results := [], errors := [] } }

/-- The new claim object built inside the `ADD_CLAIM` case:
`{id: claimId, ...result, processedAt: new Date().toISOString()}`. -/
def mkNewClaim (claimId : String) (result : ClaimResult) (now : String) : StoredClaim :=
  { id := some claimId, status := result.status, decision := result.decision,
    processedAt := some now }

/-- The actions dispatched to `appReducer`. `UPDATE_STATS` always
receives a complete stats object from `calculateStats`, so its
shallow merge is a replacement. `ADD_CLAIM` carries the timestamp
explicitly. -/
inductive StoreAction where
  | setLoading : Bool → StoreAction
  | setError : Option String → StoreAction
  | clearError : StoreAction
  | addClaim : String → ClaimResult → String → StoreAction
  | setCurrentClaim : Option StoredClaim → StoreAction
  | setRecentClaims : List StoredClaim → StoreAction
  | updateStats : Stats → StoreAction
  | startBatchProcessing : StoreAction
  | updateBatchProgress : ℚ → StoreAction
  | addBatchResult : BatchItem → StoreAction
  | addBatchError : String → StoreAction
  | finishBatchProcessing : StoreAction

/-- The `appReducer` of `AppContext.js`; `recentClaims.slice(0, 9)` is
`List.take 9`, and the batch lists append at the tail
(`[...results, payload]`). -/
def appReducer (state : AppState) (action : StoreAction) : AppState :=
  match action with
  | StoreAction.setLoading b => { state with loading := b }
  | StoreAction.setError e => { state with error := e, loading := false }
  | StoreAction.clearError => { state with error := none }
  | StoreAction.addClaim claimId result now =>
      let newClaim := mkNewClaim claimId result now
      { state with
        claims := newClaim :: state.claims,
        recentClaims := newClaim :: state.recentClaims.take 9,
        currentClaim := some newClaim }
  | StoreAction.setCurrentClaim c => { state with currentClaim := c }
  | StoreAction.setRecentClaims cs => { state with recentClaims := cs }
  | StoreAction.updateStats st => { state with stats := st }
  | StoreAction.startBatchProcessing =>
      { state with batchProcessing :=
          { inProgress := true, progress := 0, results := [], errors := [] } }
  | StoreAction.updateBatchProgress p =>
      { state with batchProcessing := { state.batchProcessing with progress := p } }
  | StoreAction.addBatchResult r =>
      { state with batchProcessing :=
          { state.batchProcessing with results := state.batchProcessing.results ++ [r] } }
  | StoreAction.addBatchError e =>
      { state with batchProcessing :=
          { state.batchProcessing with errors := state.batchProcessing.errors ++ [e] } }
  | StoreAction.finishBatchProcessing =>
      { state with batchProcessing :=
          { state.batchProcessing with inProgress := false, progress := 100 } }

/-- JavaScript `Math.round`: nearest integer, halves toward positive
infinity. -/
def jsRound (q : ℚ) : ℤ := Int.floor (q + 1 / 2)

/-- `calculateStats` of `AppContext.js`: counts are over the `decision`
field of the stored claims, `approvalRate` is
`Math.round(rate * 100) / 100`, and `avgProcessingTime` is the
hard-coded mock `2.3` in the non-empty case. -/
def calculateStats (claims : List StoredClaim) : Stats :=
  if claims.length = 0 then
    { totalClaims := 0, approvedCount := 0, deniedCount := 0,
      pendingCount := 0, approvalRate := 0, avgProcessingTime := 0 }
  else
    let totalClaims := claims.length
    let approvedCount := (claims.filter (fun c => c.decision == some "Approved")).length
    let deniedCount := (claims.filter (fun c => c.decision == some "Denied")).length
    let pendingCount := (claims.filter (fun c => c.decision == some "Pending")).length
    let approvalRate : ℚ :=
      if totalClaims > 0 then ((approvedCount : ℚ) / (totalClaims : ℚ)) * 100 else 0
    { totalClaims := totalClaims, approvedCount := approvedCount,
      deniedCount := deniedCount, pendingCount := pendingCount,
      approvalRate := ((jsRound (approvalRate * 100) : ℤ) : ℚ) / 100,
      avgProcessingTime := 23 / 10 }

/-- The error taxonomy produced by the response interceptor in
`services/api.js`; each constructor corresponds to one fixed thrown
message, `unknownError` carries the default branch's message. -/
inductive HttpErrorClass where
  | unauthorized : HttpErrorClass
  | forbidden : HttpErrorClass
  | notFound : HttpErrorClass
  | methodNotAllowed : HttpErrorClass
  | rateLimited : HttpErrorClass
  | serverError : HttpErrorClass
  | unknownError : String → HttpErrorClass
deriving DecidableEq, Repr

/-- JavaScript `a || b` where `a` is a possibly-absent string and `b`
a plain fallback string: an absent (`undefined`/`null`) or empty
message is falsy and yields the fallback. -/
def jsStrOrElse (a : Option String) (b : String) : String :=
  match a with
  | some s => if s == "" then b else s
  | none => b

/-- The `switch (status)` of the response interceptor for a failed
request that did receive a response: the default branch builds
`data?.message || 'HTTP <status>: <error.message>'`, where a missing
or empty body message falls back to the HTTP-status text. -/
def interceptResponseError (status : Nat) (dataMessage : Option String)
    (errorMessage : String) : HttpErrorClass :=
  if status = 401 then HttpErrorClass.unauthorized
  else if status = 403 then HttpErrorClass.forbidden
  else if status = 404 then HttpErrorClass.notFound
  else if status = 405 then HttpErrorClass.methodNotAllowed
  else if status = 429 then HttpErrorClass.rateLimited
  else if status = 500 then HttpErrorClass.serverError
  else HttpErrorClass.unknownError
    (jsStrOrElse dataMessage ("HTTP " ++ toString status ++ ": " ++ errorMessage))

/-- A claim as returned by the backend list endpoint, as read by
`apiService.processPendingClaims` (`claim.claim_id || claim.id` and
`claim.status`). -/
structure ServerClaim where
  claim_id : Option String := none
  id : Option String := none
  status : Option String := none
deriving DecidableEq, Repr

/-- JavaScript `a || b` on possibly-absent strings (an empty string is
falsy). -/
def jsOrString : Option String → Option String → Option String
  | some s, b => if s == "" then b else some s
  | none, b => b

/-- The qualifying filter of `apiService.processPendingClaims`:
`claim.status === 'Submitted' || claim.status === 'Pending'`. -/
def isPendingClaim (c : ServerClaim) : Bool :=
  c.status == some "Submitted" || c.status == some "Pending"

/-- One iteration of the `for (const claim of pendingClaims)` loop:
both outcomes are pushed onto the same `results` array, a success as
`{claim_id, success: true, result, originalStatus}` and a failure as
`{claim_id, success: false, error, originalStatus}`. -/
def processOnePending (oracle : Option String → Except String String)
    (c : ServerClaim) : BatchItem :=
  let cid := jsOrString c.claim_id c.id
  match oracle cid with
  | Except.ok r =>
      { claim_id := cid, success := true, result := some r, error := none,
        originalStatus := c.status }
  | Except.error e =>
      { claim_id := cid, success := false, result := none, error := some e,
        originalStatus := c.status }

/-- `apiService.processPendingClaims` after a successful fetch of
`fetched`: filter to Submitted/Pending, return `[]` immediately when
none qualify, otherwise process each claim sequentially; `oracle`
gives the outcome of `updateClaimStatus` per claim id. -/
def apiProcessPendingClaims (oracle : Option String → Except String String)
    (fetched : List ServerClaim) : List BatchItem :=
  let pendingClaims := fetched.filter isPendingClaim
  if pendingClaims.isEmpty then []
  else pendingClaims.map (processOnePending oracle)

/-- The replay loop of `actions.processPendingClaims`: for each entry of
the returned results it dispatches `ADD_BATCH_RESULT` and then
`UPDATE_BATCH_PROGRESS(((i + 1) / results.length) * 100)`. `done`
counts the items already replayed, `total` is `results.length`. -/
def replayBatchResults (total : Nat) : List BatchItem → Nat → AppState → AppState
  | [], _, s => s
  | item :: rest, done, s =>
      let s1 := appReducer s (StoreAction.addBatchResult item)
      let s2 := appReducer s1
        (StoreAction.updateBatchProgress ((((done + 1 : Nat) : ℚ) / (total : ℚ)) * 100))
      replayBatchResults total rest (done + 1) s2

/-- The store state observed after `actions.processPendingClaims` has
started the batch and replayed the first `k` result entries (the
"after each item" observation point). -/
def batchStateAfter (oracle : Option String → Except String String)
    (fetched : List ServerClaim) (s : AppState) (k : Nat) : AppState :=
  let s1 := appReducer s StoreAction.startBatchProcessing
  let s2 := appReducer s1 (StoreAction.setLoading true)
  let s3 := appReducer s2 StoreAction.clearError
  let items := apiProcessPendingClaims oracle fetched
  replayBatchResults items.length (items.take k) 0 s3

/-- `actions.processPendingClaims` on the success path: start the batch
job, clear loading state, run the gateway batch, replay every result
entry into the store, finish the batch, reset loading. Returns the
final state and the results list the call resolves with. -/
def processPendingClaimsAction (oracle : Option String → Except String String)
    (fetched : List ServerClaim) (s : AppState) : AppState × List BatchItem :=
  let s1 := appReducer s StoreAction.startBatchProcessing
  let s2 := appReducer s1 (StoreAction.setLoading true)
  let s3 := appReducer s2 StoreAction.clearError
  let results := apiProcessPendingClaims oracle fetched
  let s4 := replayBatchResults results.length results 0 s3
  let s5 := appReducer s4 StoreAction.finishBatchProcessing
  let s6 := appReducer s5 (StoreAction.setLoading false)
  (s6, results)

/-- The missing-fields pre-check of `apiService.submitClaim`:
`requiredFields.filter(field => !claimData[field])`. -/
def missingRequiredFields (c : ClaimData) : List String :=
  requiredFields.filter (fun f => !(truthy (getClaimField c f)))

/-- `apiService.submitClaim` with the network outcome `net` of the
POST: throws before any request when required fields are missing.
The second component records whether a network request was made. -/
def apiSubmitClaim (net : Except String String) (c : ClaimData) :
    Except String String × Bool :=
  let missingFields := missingRequiredFields c
  if missingFields.isEmpty then (net, true)
  else
    (Except.error ("Missing required fields: " ++ String.intercalate ", " missingFields),
     false)

/-- A `results` entry of `apiService.submitBatchClaims`:
`{index, success: true, data: result}`. -/
structure BatchSuccessEntry where
  index : Nat
  success : Bool
  data : String
deriving DecidableEq, Repr

/-- An `errors` entry of `apiService.submitBatchClaims`:
`{index, success: false, error, data: claimsArray[i]}`. -/
structure BatchErrorEntry where
  index : Nat
  success : Bool
  error : String
  data : ClaimData
deriving DecidableEq, Repr

/-- The summary object returned by `apiService.submitBatchClaims`. -/
structure BatchSummary where
  total : Nat
  successful : Nat
  failed : Nat
  results : List BatchSuccessEntry
  errors : List BatchErrorEntry
deriving DecidableEq, Repr

/-- The sequential `for (let i = 0; ...)` loop of
`apiService.submitBatchClaims`; `attempts` records the indices whose
submission reached the network. -/
def submitBatchLoop (net : Nat → Except String String) :
    List ClaimData → Nat → List BatchSuccessEntry → List BatchErrorEntry →
    List Nat → List BatchSuccessEntry × List BatchErrorEntry × List Nat
  | [], _, results, errors, attempts => (results, errors, attempts)
  | c :: rest, i, results, errors, attempts =>
      let step := apiSubmitClaim (net i) c
      let attempts2 := if step.2 then attempts ++ [i] else attempts
      match step.1 with
      | Except.ok d =>
          submitBatchLoop net rest (i + 1)
            (results ++ [{ index := i, success := true, data := d }]) errors attempts2
      | Except.error e =>
          submitBatchLoop net rest (i + 1) results
            (errors ++ [{ index := i, success := false, error := e, data := c }]) attempts2

/-- `apiService.submitBatchClaims`: rejects an empty array, otherwise
submits sequentially and returns
`{total, successful, failed, results, errors}`. The second component
is the list of indices whose requests reached the network. -/
def apiSubmitBatchClaims (net : Nat → Except String String)
    (claimsArray : List ClaimData) : Except String BatchSummary × List Nat :=
  if claimsArray.isEmpty then
    (Except.error "Claims array is required and cannot be empty", [])
  else
    let run := submitBatchLoop net claimsArray 0 [] [] []
    (Except.ok { total := claimsArray.length, successful := run.1.length,
                 failed := run.2.1.length, results := run.1, errors := run.2.1 },
     run.2.2)

/-- The per-item message built by the useClaims hook's pre-flight
validation: `Claim <index+1>: <errors joined by comma>`. -/
def hookItemMessage (i : Nat) (v : ValidationResult) : String :=
  "Claim " ++ toString (i + 1) ++ ": " ++ String.intercalate ", " v.errors

/-- The `claimsArray.forEach((claim, index) => ...)` accumulation of
per-item validation failure messages in the hook's
`submitBatchClaims`, starting at index `start`. -/
def hookValidationErrorsAux (dateOk : String → Bool) (start : Nat) :
    List ClaimData → List String
  | [] => []
  | c :: rest =>
      let validation := validateClaim dateOk c
      (if validation.isValid then [] else [hookItemMessage start validation]) ++
      hookValidationErrorsAux dateOk (start + 1) rest

/-- All pre-flight validation failure messages of the hook's
`submitBatchClaims`. -/
def hookValidationErrors (dateOk : String → Bool) (claimsArray : List ClaimData) :
    List String :=
  hookValidationErrorsAux dateOk 0 claimsArray

/-- Observable outcome of the useClaims hook's `submitBatchClaims`: the
resolved or thrown value, the indices submitted over the network, and
the hook's local `claims` list afterwards (entries opaque). The
success path never calls `setClaims` because the gateway summary has
no `claims` key. -/
structure HookBatchOutcome where
  outcome : Except String BatchSummary
  networkAttempts : List Nat
  claimsState : List String
deriving Repr

/-- The useClaims hook's `submitBatchClaims`: validate every item
first; on any failure throw one error joining all per-item messages
before any network call; otherwise run the gateway batch. -/
def hookSubmitBatchClaims (dateOk : String → Bool)
    (net : Nat → Except String String) (prevClaims : List String)
    (claimsArray : List ClaimData) : HookBatchOutcome :=
  let validationErrors := hookValidationErrors dateOk claimsArray
  if !validationErrors.isEmpty then
    { outcome := Except.error
        ("Validation failed:\n" ++ String.intercalate "\n" validationErrors),
      networkAttempts := [], claimsState := prevClaims }
  else
    let run := apiSubmitBatchClaims net claimsArray
    { outcome := run.1, networkAttempts := run.2, claimsState := prevClaims }

/-- Whether an `Except` outcome is a success. -/
def exceptOk : Except String String → Bool
  | Except.ok _ => true
  | Except.error _ => false

/-- The results entries `apiService.submitBatchClaims` accumulates for
the items of `items` when submission number `i` gets outcome `net i`
and every item passes the required-fields pre-check. -/
def expectedResults (net : Nat → Except String String) :
    Nat → List ClaimData → List BatchSuccessEntry
  | _, [] => []
  | i, _ :: rest =>
      (match net i with
       | Except.ok d => [{ index := i, success := true, data := d }]
       | Except.error _ => []) ++ expectedResults net (i + 1) rest

/-- The errors entries `apiService.submitBatchClaims` accumulates, under
the same conditions as `expectedResults`. -/
def expectedErrors (net : Nat → Except String String) :
    Nat → List ClaimData → List BatchErrorEntry
  | _, [] => []
  | i, c :: rest =>
      (match net i with
       | Except.ok _ => []
       | Except.error e => [{ index := i, success := false, error := e, data := c }]) ++
      expectedErrors net (i + 1) rest

/-- The user-facing message thrown for each taxonomy member. -/
def httpErrorMessage : HttpErrorClass → String
  | HttpErrorClass.unauthorized => "Invalid API key. Please check your credentials."
  | HttpErrorClass.forbidden => "Access forbidden. Please check your permissions."
  | HttpErrorClass.notFound => "Endpoint not found. Please check the API URL."
  | HttpErrorClass.methodNotAllowed =>
      "Method not allowed. The backend endpoint may not support this HTTP method."
  | HttpErrorClass.rateLimited => "Rate limit exceeded. Please try again later."
  | HttpErrorClass.serverError => "Server error. Please try again later."
  | HttpErrorClass.unknownError m => m

/-- The sample claim of `ClaimUtils.getSampleClaim` (UUIDs and summary
from the source; `submission_date` omitted so the date oracle is
irrelevant). -/
def sampleValidClaim : ClaimData :=
  { provider_id := some (JVal.jstr "c0a19ac4-96ba-4c5f-8e44-425d3173b0d6"),
    risk_id := some (JVal.jstr "1084bc4d-dd50-4eb4-a7da-591dc0f9bd76"),
    patient_id := some (JVal.jstr "461caa86-be43-4b30-b67a-182fb964c546"),
    policy_id := some (JVal.jstr "3d3eef35-4bd4-4e62-a20c-58b8a85e9000"),
    summary := some (JVal.jstr "Went to a therapist for depression counselling and anti-depressant meds"),
    status := some (JVal.jstr "Submitted"),
    ex_gratia_flag := some (JVal.jbool false),
    appeal_case_flag := some (JVal.jbool false) }

/-- The sample claim with a 9-character summary. -/
def nineCharSummaryClaim : ClaimData :=
  { sampleValidClaim with summary := some (JVal.jstr "nine char") }

/-- A claim whose `provider_id` is a whitespace-only string (truthy but
blank after trimming) and whose other fields validate cleanly. -/
def blankProviderClaim : ClaimData :=
  { provider_id := some (JVal.jstr " "),
    risk_id := some (JVal.jstr "1084bc4d-dd50-4eb4-a7da-591dc0f9bd76"),
    patient_id := some (JVal.jstr "461caa86-be43-4b30-b67a-182fb964c546"),
    policy_id := some (JVal.jstr "3d3eef35-4bd4-4e62-a20c-58b8a85e9000"),
    summary := some (JVal.jstr "a long enough summary") }

/-- A recent-claims list carrying only `status` fields, as in the
spec's statistics example. -/
def statusOnlyRecent : List StoredClaim :=
  [{ status := some "Approved" }, { status := some "Denied" },
   { status := some "Approved" }]

/-- The same example keyed by the `decision` field that
`calculateStats` actually reads. -/
def decisionRecent : List StoredClaim :=
  [{ decision := some "Approved" }, { decision := some "Denied" },
   { decision := some "Approved" }]

/-- A fetched page with one qualifying claim whose status update will
fail. -/
def oneSubmittedFetched : List ServerClaim :=
  [{ claim_id := some "c1", status := some "Submitted" }]

/-- A status-update oracle that fails every call. -/
def failingOracle : Option String → Except String String :=
  fun _ => Except.error "boom"

/-- A fetched page with no qualifying claim (status Approved). -/
def noPendingFetched : List ServerClaim :=
  [{ claim_id := some "c9", status := some "Approved" }]

/-- A store state left by an earlier batch run: finished, progress 37,
one accumulated result. -/
def priorBatchState : AppState :=
  { initialAppState with batchProcessing :=
      { inProgress := false, progress := 37,
        results := [{ claim_id := some "old", success := true, result := some "r0",
                      error := none, originalStatus := some "Pending" }],
        errors := [] } }

/-- A three-item batch of valid sample claims. -/
def threeValidClaims : List ClaimData :=
  [sampleValidClaim, sampleValidClaim, sampleValidClaim]

/-- A network oracle under which only the second submission (index 1)
fails. -/
def failSecondNet : Nat → Except String String :=
  fun i => if i = 1 then Except.error "network failure" else Except.ok "created"

/-- A store state whose recent-claims ring is exactly at the cap of
10. -/
def tenRecentState : AppState :=
  { initialAppState with
      recentClaims := (List.range 10).map (fun i => { id := some (toString i) }) }

/-- A status-update oracle that succeeds on every call. -/
def okOracle : Option String → Except String String := fun _ => Except.ok "r"

/-- The batch entry `apiService.processPendingClaims` builds for the
claim of `oneSubmittedFetched` under `failingOracle`. -/
def failEntryC2 : BatchItem :=
  { claim_id := some "c1", success := false, result := none, error := some "boom",
    originalStatus := some "Submitted" }


/-! ## Helper lemmas -/

/-- Counting occurrences in a conditional singleton. -/
lemma count_ite_singleton (c : Prop) [Decidable c] (x t : String) :
    List.count t (if c then [x] else []) = if c ∧ x = t then 1 else 0 := by
  by_cases h : c
  · by_cases hx : x = t
    · simp [h, hx, List.count_cons]
    · simp [h, hx, List.count_cons]
  · simp [h]

/-- A list with a positive count is nonempty. -/
lemma ne_nil_of_count_eq_one (t : String) (l : List String) (h : l.count t = 1) :
    l ≠ [] := by
  intro hnil
  rw [hnil] at h
  simp at h

/-- Field-wise equality of stats records. -/
lemma stats_eq_of_fields {a b : Stats}
    (h1 : a.totalClaims = b.totalClaims) (h2 : a.approvedCount = b.approvedCount)
    (h3 : a.deniedCount = b.deniedCount) (h4 : a.pendingCount = b.pendingCount)
    (h5 : a.approvalRate = b.approvalRate)
    (h6 : a.avgProcessingTime = b.avgProcessingTime) : a = b := by
  cases a
  cases b
  simp_all

/-! ## Claim C10 -/

/-- Claim C10 (confirmed): every `ADD_CLAIM` transition overwrites
`currentClaim` with the newly constructed claim (the merged result plus
id and `processedAt` timestamp), the same object it prepends to
`claims` and `recentClaims`. -/
theorem addClaim_sets_currentClaim (s : AppState) (cid : String)
    (r : ClaimResult) (now : String) :
    (appReducer s (StoreAction.addClaim cid r now)).currentClaim =
      some (mkNewClaim cid r now) ∧
    (appReducer s (StoreAction.addClaim cid r now)).claims =
      mkNewClaim cid r now :: s.claims ∧
    (appReducer s (StoreAction.addClaim cid r now)).recentClaims =
      mkNewClaim cid r now :: s.recentClaims.take 9 :=
  ⟨rfl, rfl, rfl⟩

/-! ## Claim C8 -/

/-- Claim C8 (confirmed): from a recent-claims list of size 10,
`ADD_CLAIM` yields size exactly 10 with the new claim first and the
previously last (oldest) entry evicted; a single `ADD_CLAIM` never
leaves more than 10 entries, so no sequence of `ADD_CLAIM` transitions
can push the list beyond 10. -/
theorem recentClaims_cap_spec (s : AppState) (cid : String) (r : ClaimResult)
    (now : String) (h : s.recentClaims.length = 10) :
    (appReducer s (StoreAction.addClaim cid r now)).recentClaims.length = 10 ∧
    (appReducer s (StoreAction.addClaim cid r now)).recentClaims =
      mkNewClaim cid r now :: s.recentClaims.dropLast ∧
    (∀ (t : AppState) (cid2 : String) (r2 : ClaimResult) (now2 : String),
      (appReducer t (StoreAction.addClaim cid2 r2 now2)).recentClaims.length ≤ 10) ∧
    (∀ (adds : List (String × ClaimResult × String)) (t : AppState),
      t.recentClaims.length ≤ 10 →
      ((adds.foldl (fun st p => appReducer st (StoreAction.addClaim p.1 p.2.1 p.2.2))
        t).recentClaims.length ≤ 10)) := by
  have hstep : ∀ (t : AppState) (cid2 : String) (r2 : ClaimResult) (now2 : String),
      (appReducer t (StoreAction.addClaim cid2 r2 now2)).recentClaims.length ≤ 10 := by
    intro t cid2 r2 now2
    simp only [appReducer, List.length_cons, List.length_take]
    have hmin := Nat.min_le_left 9 t.recentClaims.length
    omega
  refine ⟨?_, ?_, hstep, ?_⟩
  · simp only [appReducer, List.length_cons, List.length_take, h]
    decide
  · simp only [appReducer]
    rw [List.dropLast_eq_take, h]
  · intro adds
    induction adds with
    | nil => intro t ht; simpa using ht
    | cons p rest ih =>
        intro t _
        simp only [List.foldl_cons]
        exact ih _ (hstep t p.1 p.2.1 p.2.2)

/-- Witness for C8 at a concrete 10-element recent-claims list. -/
theorem recentClaims_cap_spec_witness :
    tenRecentState.recentClaims.length = 10 ∧
    (appReducer tenRecentState
      (StoreAction.addClaim "c10" { decision := some "Approved" } "t")).recentClaims.length = 10 :=
  ⟨by decide,
   (recentClaims_cap_spec tenRecentState "c10" { decision := some "Approved" } "t"
     (by decide)).1⟩

/-! ## Claim C1 -/

/-- Claim C1, counterexample: on the spec's example list, whose entries
carry only a `status` field, `calculateStats` does not report
approved=2, denied=1, rate=66.67 — it counts the `decision` field, so
all counts are 0. -/
theorem calculateStats_counts_status_counterexample :
    (calculateStats statusOnlyRecent).totalClaims = 3 ∧
    (calculateStats statusOnlyRecent).approvedCount = 0 ∧
    ¬ ((calculateStats statusOnlyRecent).approvedCount = 2 ∧
       (calculateStats statusOnlyRecent).deniedCount = 1 ∧
       (calculateStats statusOnlyRecent).approvalRate = 6667 / 100) := by
  refine ⟨by decide, by decide, ?_⟩
  intro hcl
  have h2 := hcl.1
  have h0 : (calculateStats statusOnlyRecent).approvedCount = 0 := by decide
  rw [h0] at h2
  exact absurd h2 (by decide)

/-- Claim C1 as amended: the derived statistics recompute from the
`decision` field of the recent claims — total is the length, the three
counts count entries whose `decision` is Approved, Denied and Pending,
and the approval rate is `Math.round(approved/total*100*100)/100` (0
when the list is empty); on the decision-keyed example list the stats
are total=3, approved=2, denied=1, rate=66.67. -/
theorem calculateStats_decision_spec :
    (∀ claims : List StoredClaim,
      (calculateStats claims).totalClaims = claims.length ∧
      (calculateStats claims).approvedCount =
        claims.countP (fun c => c.decision == some "Approved") ∧
      (calculateStats claims).deniedCount =
        claims.countP (fun c => c.decision == some "Denied") ∧
      (calculateStats claims).pendingCount =
        claims.countP (fun c => c.decision == some "Pending") ∧
      (calculateStats claims).approvalRate =
        (if claims.length = 0 then 0 else
          ((jsRound (((claims.countP (fun c => c.decision == some "Approved") : ℚ) /
            (claims.length : ℚ)) * 100 * 100) : ℤ) : ℚ) / 100)) ∧
    calculateStats decisionRecent =
      { totalClaims := 3, approvedCount := 2, deniedCount := 1, pendingCount := 0,
        approvalRate := 6667 / 100, avgProcessingTime := 23 / 10 } := by
  have hgen : ∀ claims : List StoredClaim,
      (calculateStats claims).totalClaims = claims.length ∧
      (calculateStats claims).approvedCount =
        claims.countP (fun c => c.decision == some "Approved") ∧
      (calculateStats claims).deniedCount =
        claims.countP (fun c => c.decision == some "Denied") ∧
      (calculateStats claims).pendingCount =
        claims.countP (fun c => c.decision == some "Pending") ∧
      (calculateStats claims).approvalRate =
        (if claims.length = 0 then 0 else
          ((jsRound (((claims.countP (fun c => c.decision == some "Approved") : ℚ) /
            (claims.length : ℚ)) * 100 * 100) : ℤ) : ℚ) / 100) := by
    intro claims
    by_cases h : claims.length = 0
    · have hnil : claims = [] := List.length_eq_zero.mp h
      subst hnil
      simp [calculateStats, jsRound]
    · have hpos : 0 < claims.length := Nat.pos_of_ne_zero h
      simp [calculateStats, h, hpos, List.countP_eq_length_filter, mul_assoc]
  refine ⟨hgen, ?_⟩
  have hlen : decisionRecent.length = 3 := by decide
  have hA : decisionRecent.countP (fun c => c.decision == some "Approved") = 2 := by decide
  have hD : decisionRecent.countP (fun c => c.decision == some "Denied") = 1 := by decide
  have hP : decisionRecent.countP (fun c => c.decision == some "Pending") = 0 := by decide
  have havg : (calculateStats decisionRecent).avgProcessingTime = 23 / 10 := by
    have h3 : ¬ decisionRecent.length = 0 := by decide
    simp [calculateStats, h3]
  obtain ⟨g1, g2, g3, g4, g5⟩ := hgen decisionRecent
  refine stats_eq_of_fields ?_ ?_ ?_ ?_ ?_ ?_
  · rw [g1, hlen]
  · rw [g2, hA]
  · rw [g3, hD]
  · rw [g4, hP]
  · rw [g5, hA, hlen]
    norm_num [jsRound]
  · exact havg

/-! ## Claim C5 -/

/-- Claim C5, counterexample: 503 is a 500-class status, yet the
interceptor does not map it to the ServerError branch — it falls to the
default branch and surfaces the response body's message. -/
theorem interceptor_503_not_server_error :
    interceptResponseError 503 (some "boom") "Request failed" =
      HttpErrorClass.unknownError "boom" ∧
    interceptResponseError 503 (some "boom") "Request failed" ≠
      HttpErrorClass.serverError ∧
    500 ≤ 503 ∧ 503 < 600 := by
  refine ⟨rfl, by decide, by decide, by decide⟩

/-- Claim C5 as amended: the interceptor maps 401 to Unauthorized, 403
to Forbidden, 404 to NotFound, 405 to MethodNotAllowed, 429 to
RateLimited, and exactly the status 500 (not the whole 500 class) to
ServerError; every other status — including 502, 503 and the rest of
the 5xx range — becomes UnknownError carrying the response body's
message when present and non-empty, and the fallback
`HTTP <status>: <error message>` when the body message is absent or
empty (the source's falsy `||` check). -/
theorem interceptor_status_mapping_spec :
    (∀ (d : Option String) (e : String),
      interceptResponseError 401 d e = HttpErrorClass.unauthorized ∧
      interceptResponseError 403 d e = HttpErrorClass.forbidden ∧
      interceptResponseError 404 d e = HttpErrorClass.notFound ∧
      interceptResponseError 405 d e = HttpErrorClass.methodNotAllowed ∧
      interceptResponseError 429 d e = HttpErrorClass.rateLimited ∧
      interceptResponseError 500 d e = HttpErrorClass.serverError) ∧
    (∀ (status : Nat) (d : Option String) (e : String),
      status ∉ ([401, 403, 404, 405, 429, 500] : List Nat) →
      interceptResponseError status d e =
        HttpErrorClass.unknownError
          (jsStrOrElse d ("HTTP " ++ toString status ++ ": " ++ e))) ∧
    (∀ (status : Nat) (m e : String),
      status ∉ ([401, 403, 404, 405, 429, 500] : List Nat) → m ≠ "" →
      interceptResponseError status (some m) e = HttpErrorClass.unknownError m) ∧
    (∀ (status : Nat) (e : String),
      status ∉ ([401, 403, 404, 405, 429, 500] : List Nat) →
      interceptResponseError status (some "") e =
        HttpErrorClass.unknownError ("HTTP " ++ toString status ++ ": " ++ e) ∧
      interceptResponseError status none e =
        HttpErrorClass.unknownError ("HTTP " ++ toString status ++ ": " ++ e)) := by
  have hdef : ∀ (status : Nat) (d : Option String) (e : String),
      status ∉ ([401, 403, 404, 405, 429, 500] : List Nat) →
      interceptResponseError status d e =
        HttpErrorClass.unknownError
          (jsStrOrElse d ("HTTP " ++ toString status ++ ": " ++ e)) := by
    intro status d e hmem
    simp only [List.mem_cons, List.mem_singleton, not_or] at hmem
    obtain ⟨h1, h2, h3, h4, h5, h6⟩ := hmem
    simp [interceptResponseError, h1, h2, h3, h4, h5, h6]
  refine ⟨fun d e => ⟨rfl, rfl, rfl, rfl, rfl, rfl⟩, hdef, ?_, ?_⟩
  · intro status m e hmem hm
    rw [hdef status (some m) e hmem]
    simp [jsStrOrElse, hm]
  · intro status e hmem
    constructor
    · rw [hdef status (some "") e hmem]
      simp [jsStrOrElse]
    · rw [hdef status none e hmem]
      simp [jsStrOrElse]

/-- Witness for C5 at status 418: a non-empty body message is carried,
an empty one falls back to the HTTP-status text. -/
theorem interceptor_status_mapping_spec_witness :
    interceptResponseError 418 (some "teapot") "Request failed" =
      HttpErrorClass.unknownError "teapot" ∧
    interceptResponseError 418 (some "") "Request failed" =
      HttpErrorClass.unknownError ("HTTP " ++ toString (418 : Nat) ++ ": " ++ "Request failed") :=
  ⟨interceptor_status_mapping_spec.2.2.1 418 "teapot" "Request failed" (by decide)
      (by decide),
   (interceptor_status_mapping_spec.2.2.2 418 "Request failed" (by decide)).1⟩

/-! ## Claims C2 and C3 -/

/-- Characterization of the replay loop of `actions.processPendingClaims`:
it appends every entry to the batch results and, when at least one item
was replayed, leaves progress at `(done + items)/total*100`. -/
lemma replayBatchResults_spec (total : Nat) (items : List BatchItem) (done : Nat)
    (s : AppState) :
    replayBatchResults total items done s =
      { s with batchProcessing :=
          { s.batchProcessing with
              progress := if items.isEmpty then s.batchProcessing.progress
                else (((done + items.length : Nat) : ℚ) / (total : ℚ)) * 100,
              results := s.batchProcessing.results ++ items } } := by
  induction items generalizing done s with
  | nil => simp [replayBatchResults]
  | cons item rest ih =>
      simp only [replayBatchResults, appReducer]
      rw [ih]
      by_cases hrest : rest = []
      · subst hrest
        simp
      · have hne : rest.isEmpty = false := by simpa [List.isEmpty_iff] using hrest
        have harith : done + 1 + rest.length = done + (rest.length + 1) := by omega
        simp [hne, harith]

/-- `apiService.processPendingClaims` always equals the map of the
per-item processing over the qualifying claims (the empty-filter early
return coincides with the map over an empty list). -/
lemma apiProcessPendingClaims_eq_map (oracle : Option String → Except String String)
    (fetched : List ServerClaim) :
    apiProcessPendingClaims oracle fetched =
      (fetched.filter isPendingClaim).map (processOnePending oracle) := by
  unfold apiProcessPendingClaims
  by_cases h : (fetched.filter isPendingClaim).isEmpty
  · have hnil := List.isEmpty_iff.mp h
    simp [h, hnil]
  · simp [h]

/-- After `actions.processPendingClaims` completes, the batch slice is
finished at progress 100 with all per-item entries (successes and
failures alike) in `results` and an empty `errors` list. -/
lemma processPending_final_batch (oracle : Option String → Except String String)
    (fetched : List ServerClaim) (s : AppState) :
    (processPendingClaimsAction oracle fetched s).1.batchProcessing =
      { inProgress := false, progress := 100,
        results := apiProcessPendingClaims oracle fetched, errors := [] } := by
  simp only [processPendingClaimsAction, appReducer]
  rw [replayBatchResults_spec]
  simp

/-- Claim C2, counterexample: in a run whose single qualifying claim
fails its status update, the failure entry
`{claim_id, success: false, error, originalStatus}` ends up in the
batch job's `results` list while the `errors` list stays empty — there
is no separate errors list for per-item failures, contradicting the
claim. -/
theorem processPending_errors_list_counterexample :
    (processPendingClaimsAction failingOracle oneSubmittedFetched
      initialAppState).1.batchProcessing.errors = [] ∧
    (processPendingClaimsAction failingOracle oneSubmittedFetched
      initialAppState).1.batchProcessing.results = [failEntryC2] ∧
    failEntryC2.success = false ∧
    ([failEntryC2] : List BatchItem) ≠ [] := by
  refine ⟨?_, ?_, rfl, by decide⟩
  · rw [processPending_final_batch]
  · rw [processPending_final_batch]
    decide

/-- Claim C2 as amended: each qualifying item is processed sequentially
and appends `{claim_id, success: true, result, originalStatus}` on
success and `{claim_id, success: false, error, originalStatus}` on
failure to the single `results` list (the batch `errors` list receives
nothing on per-item failure), and after each item the progress equals
`completed/total*100`, where both successes and failures count as
completed. -/
theorem processPending_results_accumulation_spec
    (oracle : Option String → Except String String) (fetched : List ServerClaim)
    (s : AppState) :
    (processPendingClaimsAction oracle fetched s).2 =
      (fetched.filter isPendingClaim).map (processOnePending oracle) ∧
    (processPendingClaimsAction oracle fetched s).1.batchProcessing.results =
      apiProcessPendingClaims oracle fetched ∧
    (processPendingClaimsAction oracle fetched s).1.batchProcessing.errors = [] ∧
    (∀ k, 1 ≤ k → k ≤ (apiProcessPendingClaims oracle fetched).length →
      (batchStateAfter oracle fetched s k).batchProcessing.results =
        (apiProcessPendingClaims oracle fetched).take k ∧
      (batchStateAfter oracle fetched s k).batchProcessing.progress =
        ((k : ℚ) / ((apiProcessPendingClaims oracle fetched).length : ℚ)) * 100) := by
  refine ⟨?_, ?_, ?_, ?_⟩
  · simp only [processPendingClaimsAction]
    exact apiProcessPendingClaims_eq_map oracle fetched
  · rw [processPending_final_batch]
  · rw [processPending_final_batch]
  · intro k hk1 hk2
    have hlen : ((apiProcessPendingClaims oracle fetched).take k).length = k := by
      rw [List.length_take]
      omega
    have hne : ((apiProcessPendingClaims oracle fetched).take k).isEmpty = false := by
      rw [List.isEmpty_eq_false]
      intro hnil
      rw [hnil] at hlen
      simp at hlen
      omega
    constructor
    · simp only [batchStateAfter, appReducer]
      rw [replayBatchResults_spec]
      simp
    · simp only [batchStateAfter, appReducer]
      rw [replayBatchResults_spec]
      simp [hne, hlen]

/-- Witness for C2 at a one-item run whose item fails: after the first
item, results hold that item and progress is 1/1*100. -/
theorem processPending_results_accumulation_spec_witness :
    (batchStateAfter failingOracle oneSubmittedFetched initialAppState
        1).batchProcessing.results =
      (apiProcessPendingClaims failingOracle oneSubmittedFetched).take 1 ∧
    (batchStateAfter failingOracle oneSubmittedFetched initialAppState
        1).batchProcessing.progress =
      ((1 : ℚ) /
        ((apiProcessPendingClaims failingOracle oneSubmittedFetched).length : ℚ)) * 100 :=
  (processPending_results_accumulation_spec failingOracle oneSubmittedFetched
    initialAppState).2.2.2 1 (by decide) (by decide)

/-- Claim C3, counterexample: with zero qualifying claims the gateway
call does return `[]`, but the store action still resets the batch job:
starting from a state whose batch slice holds a prior result and
progress 37, the run ends with `results = []` and `progress = 100`, so
progress and results are not left exactly as they were. -/
theorem processPending_empty_frame_counterexample :
    apiProcessPendingClaims okOracle noPendingFetched = [] ∧
    (processPendingClaimsAction okOracle noPendingFetched
      priorBatchState).1.batchProcessing.results = [] ∧
    priorBatchState.batchProcessing.results ≠ [] ∧
    (processPendingClaimsAction okOracle noPendingFetched
      priorBatchState).1.batchProcessing.progress = 100 ∧
    priorBatchState.batchProcessing.progress = 37 ∧
    (100 : ℚ) ≠ 37 := by
  refine ⟨by decide, ?_, by decide, ?_, rfl, by norm_num⟩
  · rw [processPending_final_batch]
    decide
  · rw [processPending_final_batch]

/-- Claim C3 as amended: when no fetched claim has status Submitted or
Pending, `apiService.processPendingClaims` returns an empty result set
and the action resolves with `[]`; the store action nevertheless starts
and finishes the batch job, leaving the batch slice at
`{in_progress: false, progress: 100, results: [], errors: []}`
regardless of its prior contents. -/
theorem processPending_empty_resets_batch
    (oracle : Option String → Except String String) (fetched : List ServerClaim)
    (s : AppState) (h : fetched.filter isPendingClaim = []) :
    apiProcessPendingClaims oracle fetched = [] ∧
    (processPendingClaimsAction oracle fetched s).2 = [] ∧
    (processPendingClaimsAction oracle fetched s).1.batchProcessing =
      { inProgress := false, progress := 100, results := [], errors := [] } := by
  have hempty : apiProcessPendingClaims oracle fetched = [] := by
    rw [apiProcessPendingClaims_eq_map, h]
    rfl
  refine ⟨hempty, ?_, ?_⟩
  · simp only [processPendingClaimsAction]
    exact hempty
  · rw [processPending_final_batch, hempty]

/-- Witness for C3 at a fetched page with one non-qualifying claim and
a prior batch state. -/
theorem processPending_empty_resets_batch_witness :
    apiProcessPendingClaims okOracle noPendingFetched = [] ∧
    (processPendingClaimsAction okOracle noPendingFetched priorBatchState).2 = [] ∧
    (processPendingClaimsAction okOracle noPendingFetched
      priorBatchState).1.batchProcessing =
      { inProgress := false, progress := 100, results := [], errors := [] } :=
  processPending_empty_resets_batch okOracle noPendingFetched priorBatchState (by decide)

/-! ## Claim C4 -/

/-- Claim C4, counterexample: `ClaimUtils.validateClaim` reports a
claim whose summary has 9 characters as fully valid — it has no
summary-length check at all, so "validation" as implemented there does
not enforce the [10, 1000] bound. -/
theorem validateClaim_no_summary_length_counterexample :
    validateClaim (fun _ => true) nineCharSummaryClaim =
      { isValid := true, errors := [] } ∧
    (jsToStrOpt nineCharSummaryClaim.summary).length = 9 :=
  ⟨by decide, by decide⟩

set_option maxRecDepth 40000 in
/-- Claim C4 as amended: the [10, 1000] summary-length bound is
enforced only by the form-level validator (`FormUtils.validateField`
with the `summary` field configuration): for every non-blank summary
the field validates cleanly exactly when its length lies in [10, 1000];
in particular a 9-character summary fails, a 10-character one passes, a
1001-character one fails and a 1000-character one passes — while
`ClaimUtils.validateClaim` accepts a claim whose summary has 9
characters. -/
theorem summary_length_bounds_spec :
    (∀ s : String, jsTrim s ≠ "" →
      (validateField summaryFieldConfig (some s) = [] ↔
        10 ≤ s.length ∧ s.length ≤ 1000)) ∧
    validateField summaryFieldConfig (some "123456789") ≠ [] ∧
    validateField summaryFieldConfig (some "1234567890") = [] ∧
    validateField summaryFieldConfig (some (String.mk (List.replicate 1001 'a'))) ≠ [] ∧
    validateField summaryFieldConfig (some (String.mk (List.replicate 1000 'a'))) = [] ∧
    validateClaim (fun _ => true) nineCharSummaryClaim =
      { isValid := true, errors := [] } := by
  have hgen : ∀ s : String, jsTrim s ≠ "" →
      (validateField summaryFieldConfig (some s) = [] ↔
        10 ≤ s.length ∧ s.length ≤ 1000) := by
    intro s hs
    have hne : s ≠ "" := by
      intro h0
      rw [h0] at hs
      exact hs rfl
    have hempty : jsEmptyFieldValue (some s) = false := by
      simp [jsEmptyFieldValue, hne, hs]
    simp only [validateField, summaryFieldConfig, hempty, Bool.and_false]
    by_cases h10 : s.length < 10 <;> by_cases h1000 : s.length > 1000 <;>
      simp [h10, h1000] <;> omega
  refine ⟨hgen, ?_, ?_, ?_, ?_, by decide⟩
  · decide
  · decide
  · decide
  · decide

/-- Witness for C4 at the 10-character summary. -/
theorem summary_length_bounds_spec_witness :
    validateField summaryFieldConfig (some "1234567890") = [] ↔
      10 ≤ ("1234567890" : String).length ∧ ("1234567890" : String).length ≤ 1000 :=
  summary_length_bounds_spec.1 "1234567890" (by decide)

/-! ## Claim C9 -/

/-- Claim C9, counterexample: a whitespace-only `provider_id` is blank
(it fails the required check) yet, being truthy, it does not skip the
field's UUID check — `validateClaim` reports both
"provider_id is required" and "provider_id must be a valid UUID" for
the same blank field, so a blank value does not skip the further
checks of its field. -/
theorem validateClaim_blank_uuid_counterexample :
    (validateClaim (fun _ => true) blankProviderClaim).errors =
      ["provider_id is required", "provider_id must be a valid UUID"] ∧
    isMissingOrBlank blankProviderClaim.provider_id = true ∧
    "provider_id must be a valid UUID" ∈
      (validateClaim (fun _ => true) blankProviderClaim).errors :=
  ⟨by decide, by decide, by decide⟩

/-- `isValid` is the emptiness of the accumulated error list. -/
lemma validateClaim_isValid_eq (dateOk : String → Bool) (c : ClaimData) :
    (validateClaim dateOk c).isValid = ((validateClaim dateOk c).errors).isEmpty := by
  simp [validateClaim]

/-- Claim C9 as amended: for every claim, each of the five required
fields contributes exactly one `"<field> is required"` error exactly
when it is missing or blank — the checks accumulate independently, so
one field's failure never suppresses another field's error — and any
missing required field forces `is_valid = false`; a falsy (missing or
empty) identifier value skips that field's UUID check, but a
whitespace-only value does not (it is truthy), unlike the claim's
blanket "blank or missing skips further checks". -/
theorem validateClaim_required_accumulation_spec (dateOk : String → Bool)
    (c : ClaimData) :
    ((validateClaim dateOk c).errors.count "provider_id is required" =
      if isMissingOrBlank c.provider_id then 1 else 0) ∧
    ((validateClaim dateOk c).errors.count "risk_id is required" =
      if isMissingOrBlank c.risk_id then 1 else 0) ∧
    ((validateClaim dateOk c).errors.count "patient_id is required" =
      if isMissingOrBlank c.patient_id then 1 else 0) ∧
    ((validateClaim dateOk c).errors.count "policy_id is required" =
      if isMissingOrBlank c.policy_id then 1 else 0) ∧
    ((validateClaim dateOk c).errors.count "summary is required" =
      if isMissingOrBlank c.summary then 1 else 0) ∧
    ((isMissingOrBlank c.provider_id = true ∨ isMissingOrBlank c.risk_id = true ∨
      isMissingOrBlank c.patient_id = true ∨ isMissingOrBlank c.policy_id = true ∨
      isMissingOrBlank c.summary = true) →
      (validateClaim dateOk c).isValid = false) ∧
    (truthy c.provider_id = false → uuidFieldError "provider_id" c.provider_id = []) ∧
    (truthy c.risk_id = false → uuidFieldError "risk_id" c.risk_id = []) ∧
    (truthy c.patient_id = false → uuidFieldError "patient_id" c.patient_id = []) ∧
    (truthy c.policy_id = false → uuidFieldError "policy_id" c.policy_id = []) := by
  have hstat : "status must be one of: " ++ String.intercalate ", " validStatuses =
      "status must be one of: Submitted, Pending, Approved, Denied, Under Review" := by
    decide
  have hcount : ∀ t : String,
      (validateClaim dateOk c).errors.count t =
        (reqFieldError "provider_id" c.provider_id).count t +
        (reqFieldError "risk_id" c.risk_id).count t +
        (reqFieldError "patient_id" c.patient_id).count t +
        (reqFieldError "policy_id" c.policy_id).count t +
        (reqFieldError "summary" c.summary).count t +
        (uuidFieldError "provider_id" c.provider_id).count t +
        (uuidFieldError "risk_id" c.risk_id).count t +
        (uuidFieldError "patient_id" c.patient_id).count t +
        (uuidFieldError "policy_id" c.policy_id).count t +
        (statusError c.status).count t +
        (boolFieldError "ex_gratia_flag" c.ex_gratia_flag).count t +
        (boolFieldError "appeal_case_flag" c.appeal_case_flag).count t +
        (dateFieldError dateOk c.submission_date).count t := by
    intro t
    simp [validateClaim, List.count_append]
    omega
  have h1 : (validateClaim dateOk c).errors.count "provider_id is required" =
      if isMissingOrBlank c.provider_id then 1 else 0 := by
    rw [hcount]
    simp only [reqFieldError, uuidFieldError, statusError, boolFieldError,
      dateFieldError, hstat, count_ite_singleton]
    simp
  have h2 : (validateClaim dateOk c).errors.count "risk_id is required" =
      if isMissingOrBlank c.risk_id then 1 else 0 := by
    rw [hcount]
    simp only [reqFieldError, uuidFieldError, statusError, boolFieldError,
      dateFieldError, hstat, count_ite_singleton]
    simp
  have h3 : (validateClaim dateOk c).errors.count "patient_id is required" =
      if isMissingOrBlank c.patient_id then 1 else 0 := by
    rw [hcount]
    simp only [reqFieldError, uuidFieldError, statusError, boolFieldError,
      dateFieldError, hstat, count_ite_singleton]
    simp
  have h4 : (validateClaim dateOk c).errors.count "policy_id is required" =
      if isMissingOrBlank c.policy_id then 1 else 0 := by
    rw [hcount]
    simp only [reqFieldError, uuidFieldError, statusError, boolFieldError,
      dateFieldError, hstat, count_ite_singleton]
    simp
  have h5 : (validateClaim dateOk c).errors.count "summary is required" =
      if isMissingOrBlank c.summary then 1 else 0 := by
    rw [hcount]
    simp only [reqFieldError, uuidFieldError, statusError, boolFieldError,
      dateFieldError, hstat, count_ite_singleton]
    simp
  refine ⟨h1, h2, h3, h4, h5, ?_, ?_, ?_, ?_, ?_⟩
  · intro hmiss
    rw [validateClaim_isValid_eq]
    rw [List.isEmpty_eq_false]
    rcases hmiss with hm | hm | hm | hm | hm
    · exact ne_nil_of_count_eq_one _ _ (by rw [h1, hm]; rfl)
    · exact ne_nil_of_count_eq_one _ _ (by rw [h2, hm]; rfl)
    · exact ne_nil_of_count_eq_one _ _ (by rw [h3, hm]; rfl)
    · exact ne_nil_of_count_eq_one _ _ (by rw [h4, hm]; rfl)
    · exact ne_nil_of_count_eq_one _ _ (by rw [h5, hm]; rfl)
  · intro h
    simp [uuidFieldError, h]
  · intro h
    simp [uuidFieldError, h]
  · intro h
    simp [uuidFieldError, h]
  · intro h
    simp [uuidFieldError, h]

/-- Witness for C9 at the all-missing claim record. -/
theorem validateClaim_required_accumulation_spec_witness :
    (validateClaim (fun _ => true) ({} : ClaimData)).isValid = false ∧
    (validateClaim (fun _ => true) ({} : ClaimData)).errors.count
      "provider_id is required" =
      (if isMissingOrBlank ({} : ClaimData).provider_id then 1 else 0) :=
  ⟨(validateClaim_required_accumulation_spec (fun _ => true) {}).2.2.2.2.2.1
      (Or.inl (by decide)),
   (validateClaim_required_accumulation_spec (fun _ => true) {}).1⟩

/-! ## Claim C6 -/

/-- Every item that fails pre-flight validation contributes its message
(at its 1-based position) to the hook's accumulated validation
errors. -/
lemma hookValidationErrorsAux_mem (dateOk : String → Bool) (l : List ClaimData) :
    ∀ (start i : Nat) (c : ClaimData), l.get? i = some c →
      (validateClaim dateOk c).isValid = false →
      hookItemMessage (start + i) (validateClaim dateOk c) ∈
        hookValidationErrorsAux dateOk start l := by
  induction l with
  | nil =>
      intro start i c h _
      simp [List.get?] at h
  | cons hd tl ih =>
      intro start i c hget hval
      cases i with
      | zero =>
          rw [List.get?_cons_zero, Option.some.injEq] at hget
          subst hget
          simp [hookValidationErrorsAux, hval]
      | succ j =>
          rw [List.get?_cons_succ] at hget
          have hmem := ih (start + 1) j c hget hval
          have harith : start + (j + 1) = start + 1 + j := by omega
          rw [harith]
          exact List.mem_append_right _ hmem

/-- Claim C6 (confirmed): when any item of the batch fails validation,
the hook's `submit_batch` aborts the entire batch with a single error
that joins the per-item messages — which include one entry for every
failing item — and performs no network submission at all, leaving the
local claims list unchanged. -/
theorem submitBatch_validation_abort (dateOk : String → Bool)
    (net : Nat → Except String String) (prevClaims : List String)
    (claimsArray : List ClaimData)
    (h : hookValidationErrors dateOk claimsArray ≠ []) :
    (hookSubmitBatchClaims dateOk net prevClaims claimsArray).outcome =
      Except.error ("Validation failed:\n" ++
        String.intercalate "\n" (hookValidationErrors dateOk claimsArray)) ∧
    (hookSubmitBatchClaims dateOk net prevClaims claimsArray).networkAttempts = [] ∧
    (hookSubmitBatchClaims dateOk net prevClaims claimsArray).claimsState = prevClaims ∧
    (∀ (i : Nat) (c : ClaimData), claimsArray.get? i = some c →
      (validateClaim dateOk c).isValid = false →
      hookItemMessage i (validateClaim dateOk c) ∈
        hookValidationErrors dateOk claimsArray) := by
  have hne : (hookValidationErrors dateOk claimsArray).isEmpty = false := by
    rw [List.isEmpty_eq_false]
    exact h
  refine ⟨?_, ?_, ?_, ?_⟩
  · simp [hookSubmitBatchClaims, hne]
  · simp [hookSubmitBatchClaims, hne]
  · simp [hookSubmitBatchClaims, hne]
  · intro i c hget hval
    have hmem := hookValidationErrorsAux_mem dateOk claimsArray 0 i c hget hval
    simpa [hookValidationErrors] using hmem

/-- Witness for C6 at a one-item batch whose item is missing every
required field. -/
theorem submitBatch_validation_abort_witness :
    (hookSubmitBatchClaims (fun _ => true) (fun _ => Except.ok "resp") ["k"]
      [({} : ClaimData)]).networkAttempts = [] ∧
    (hookSubmitBatchClaims (fun _ => true) (fun _ => Except.ok "resp") ["k"]
      [({} : ClaimData)]).claimsState = ["k"] :=
  ⟨(submitBatch_validation_abort (fun _ => true) (fun _ => Except.ok "resp") ["k"]
      [{}] (by decide)).2.1,
   (submitBatch_validation_abort (fun _ => true) (fun _ => Except.ok "resp") ["k"]
      [{}] (by decide)).2.2.1⟩

/-! ## Claim C7 -/

/-- Characterization of the sequential submission loop when every item
passes the required-fields pre-check: it accumulates exactly the
expected success and error entries and attempts every index in
order. -/
lemma submitBatchLoop_spec (net : Nat → Except String String)
    (items : List ClaimData) :
    ∀ (i : Nat) (rs : List BatchSuccessEntry) (es : List BatchErrorEntry)
      (ats : List Nat),
      (∀ c ∈ items, (missingRequiredFields c).isEmpty = true) →
      submitBatchLoop net items i rs es ats =
        (rs ++ expectedResults net i items, es ++ expectedErrors net i items,
         ats ++ List.range' i items.length) := by
  induction items with
  | nil =>
      intro i rs es ats _
      simp [submitBatchLoop, expectedResults, expectedErrors, List.range']
  | cons c rest ih =>
      intro i rs es ats h
      have hc : (missingRequiredFields c).isEmpty = true := h c (by simp)
      have hrest : ∀ x ∈ rest, (missingRequiredFields x).isEmpty = true :=
        fun x hx => h x (by simp [hx])
      simp only [submitBatchLoop, apiSubmitClaim, hc, if_true]
      cases hnet : net i with
      | ok d =>
          dsimp only
          rw [ih (i + 1) _ _ _ hrest]
          simp [expectedResults, expectedErrors, hnet, List.range'_succ]
      | error e =>
          dsimp only
          rw [ih (i + 1) _ _ _ hrest]
          simp [expectedResults, expectedErrors, hnet, List.range'_succ]

/-- The indices of the accumulated success entries are exactly the
indices whose network outcome succeeds, in increasing order. -/
lemma expectedResults_map_index (net : Nat → Except String String) :
    ∀ (i : Nat) (items : List ClaimData),
      (expectedResults net i items).map (fun r => r.index) =
        (List.range' i items.length).filter (fun j => exceptOk (net j)) := by
  intro i items
  induction items generalizing i with
  | nil => simp [expectedResults, List.range']
  | cons c rest ih =>
      cases hnet : net i with
      | ok d =>
          simp [expectedResults, hnet, List.range'_succ, exceptOk, ih]
      | error e =>
          simp [expectedResults, hnet, List.range'_succ, exceptOk, ih]

/-- The indices of the accumulated error entries are exactly the
indices whose network outcome fails, in increasing order. -/
lemma expectedErrors_map_index (net : Nat → Except String String) :
    ∀ (i : Nat) (items : List ClaimData),
      (expectedErrors net i items).map (fun r => r.index) =
        (List.range' i items.length).filter (fun j => !(exceptOk (net j))) := by
  intro i items
  induction items generalizing i with
  | nil => simp [expectedErrors, List.range']
  | cons c rest ih =>
      cases hnet : net i with
      | ok d =>
          simp [expectedErrors, hnet, List.range'_succ, exceptOk, ih]
      | error e =>
          simp [expectedErrors, hnet, List.range'_succ, exceptOk, ih]

/-- Every accumulated success entry carries `success = true`. -/
lemma expectedResults_success_true (net : Nat → Except String String) :
    ∀ (i : Nat) (items : List ClaimData) (r : BatchSuccessEntry),
      r ∈ expectedResults net i items → r.success = true := by
  intro i items
  induction items generalizing i with
  | nil =>
      intro r hr
      simp [expectedResults] at hr
  | cons c rest ih =>
      intro r hr
      cases hnet : net i with
      | ok d =>
          rw [expectedResults, hnet] at hr
          rcases List.mem_append.mp hr with hl | hl
          · simp at hl
            subst hl
            rfl
          · exact ih (i + 1) r hl
      | error e =>
          rw [expectedResults, hnet] at hr
          simp only [List.nil_append] at hr
          exact ih (i + 1) r hr

/-- Every accumulated error entry carries `success = false`. -/
lemma expectedErrors_success_false (net : Nat → Except String String) :
    ∀ (i : Nat) (items : List ClaimData) (r : BatchErrorEntry),
      r ∈ expectedErrors net i items → r.success = false := by
  intro i items
  induction items generalizing i with
  | nil =>
      intro r hr
      simp [expectedErrors] at hr
  | cons c rest ih =>
      intro r hr
      cases hnet : net i with
      | error e =>
          rw [expectedErrors, hnet] at hr
          rcases List.mem_append.mp hr with hl | hl
          · simp at hl
            subst hl
            rfl
          · exact ih (i + 1) r hl
      | ok d =>
          rw [expectedErrors, hnet] at hr
          simp only [List.nil_append] at hr
          exact ih (i + 1) r hr

/-- A boolean filter and its negation split a list's length. -/
lemma length_filter_add_length_filter_not (p : Nat → Bool) (l : List Nat) :
    (l.filter p).length + (l.filter (fun x => !(p x))).length = l.length := by
  induction l with
  | nil => simp
  | cons a t ih =>
      cases hp : p a <;> simp [hp, ih] <;> omega

/-- Claim C7 (confirmed): for a non-empty batch in which every item
passes validation (its required fields are present), the items are
submitted sequentially in order — every index reaches the network, so
one item's failure never prevents later submissions — and the summary
satisfies total = input length, successful = number of succeeded items,
failed = number of failed items, with each results/errors entry
carrying the index of the item it refers to. -/
theorem submitBatch_isolation_spec (net : Nat → Except String String)
    (claimsArray : List ClaimData) (h1 : claimsArray ≠ [])
    (h2 : ∀ c ∈ claimsArray, (missingRequiredFields c).isEmpty = true) :
    ∃ summary : BatchSummary,
      (apiSubmitBatchClaims net claimsArray).1 = Except.ok summary ∧
      summary.total = claimsArray.length ∧
      summary.results.map (fun r => r.index) =
        (List.range claimsArray.length).filter (fun j => exceptOk (net j)) ∧
      summary.errors.map (fun r => r.index) =
        (List.range claimsArray.length).filter (fun j => !(exceptOk (net j))) ∧
      summary.successful = summary.results.length ∧
      summary.failed = summary.errors.length ∧
      summary.successful + summary.failed = summary.total ∧
      (∀ r ∈ summary.results, r.success = true) ∧
      (∀ r ∈ summary.errors, r.success = false) ∧
      (apiSubmitBatchClaims net claimsArray).2 = List.range claimsArray.length := by
  have hne : claimsArray.isEmpty = false := by
    rw [List.isEmpty_eq_false]
    exact h1
  have hloop := submitBatchLoop_spec net claimsArray 0 [] [] [] h2
  have ha := congrArg List.length (expectedResults_map_index net 0 claimsArray)
  rw [List.length_map] at ha
  have hb := congrArg List.length (expectedErrors_map_index net 0 claimsArray)
  rw [List.length_map] at hb
  refine ⟨{ total := claimsArray.length,
            successful := (expectedResults net 0 claimsArray).length,
            failed := (expectedErrors net 0 claimsArray).length,
            results := expectedResults net 0 claimsArray,
            errors := expectedErrors net 0 claimsArray },
          ?_, rfl, ?_, ?_, rfl, rfl, ?_, ?_, ?_, ?_⟩
  · simp [apiSubmitBatchClaims, hne, hloop]
  · rw [List.range_eq_range']
    exact expectedResults_map_index net 0 claimsArray
  · rw [List.range_eq_range']
    exact expectedErrors_map_index net 0 claimsArray
  · rw [ha, hb, length_filter_add_length_filter_not]
    exact List.length_range' 0 1 claimsArray.length
  · exact fun r hr => expectedResults_success_true net 0 claimsArray r hr
  · exact fun r hr => expectedErrors_success_false net 0 claimsArray r hr
  · rw [List.range_eq_range']
    simp [apiSubmitBatchClaims, hne, hloop]

/-- Witness for C7 at the spec's scenario: a 3-item batch where only
item 2 (index 1) fails network-side reports successful=2, failed=1,
with results at indices 0 and 2 and the error at index 1. -/
theorem submitBatch_isolation_spec_witness :
    ∃ summary : BatchSummary,
      (apiSubmitBatchClaims failSecondNet threeValidClaims).1 = Except.ok summary ∧
      summary.total = 3 ∧ summary.successful = 2 ∧ summary.failed = 1 ∧
      summary.results.map (fun r => r.index) = [0, 2] ∧
      summary.errors.map (fun r => r.index) = [1] := by
  obtain ⟨summary, hok, htot, hres, herr, hsucc, hfail, hsum, _, _, _⟩ :=
    submitBatch_isolation_spec failSecondNet threeValidClaims (by decide) (by decide)
  have hres2 : summary.results.map (fun r => r.index) = [0, 2] := by
    rw [hres]
    decide
  have herr2 : summary.errors.map (fun r => r.index) = [1] := by
    rw [herr]
    decide
  have hlsucc := congrArg List.length hres2
  rw [List.length_map] at hlsucc
  have hlfail := congrArg List.length herr2
  rw [List.length_map] at hlfail
  refine ⟨summary, hok, ?_, ?_, ?_, hres2, herr2⟩
  · rw [htot]
    decide
  · rw [hsucc, hlsucc]
    rfl
  · rw [hfail, hlfail]
    rfl
